import Mathlib

/-!
Shallow embedding of the "Éclat de Lune" e-commerce backend
(`main.py`, `schemas.py`) and of its document-store adapter.

The store adapter (`database.py`) is not part of the sources; its
operations are modelled from the specification's adapter contract:
`insert` appends a document and returns a store-generated identifier,
`find` returns the documents matching an exact-equality filter in
store-native order truncated to an optional limit, and `update-set`
applies a partial field update to the single document identified by an
internal id.

Numeric JSON fields that the program only ever stores and compares
(`price`, `co2_saved_kg`) are modelled as rationals; integer fields
(`photons`, `order`, `amount`) as `Int`.  Documents read back from the
store are dictionaries, so fields read with `dict.get(key, default)`
(`order`, `photons`) are modelled as `Option Int` in the stored
document shapes (`LookbookDoc`, `LoyaltyDoc`), while the pydantic
models (`LookbookEntry`, `LoyaltyUser`) have the field present.
-/

/-- Product schema from `schemas.py` (collection `product`). -/
structure Product where
  title : String
  slug : String
  description : Option String
  price : Rat
  category : String
  images : List String
  glb_url : Option String
  colorways : List String
  sizes : List String
  co2_saved_kg : Option Rat
  in_stock : Bool
deriving DecidableEq

/-- Pydantic validation of a `Product` payload: `price ≥ 0`, `category`
one of the four literals, `co2_saved_kg ≥ 0` when present. -/
def Product.validb (p : Product) : Bool :=
  decide (0 ≤ p.price)
    && ["New", "Ready-to-Wear", "Occasion", "Atelier"].contains p.category
    && (match p.co2_saved_kg with
        | none => true
        | some c => decide (0 ≤ c))

/-- LookbookEntry schema from `schemas.py` (collection `lookbookentry`). -/
structure LookbookEntry where
  season : String
  title : String
  slug : String
  image : String
  product_slugs : List String
  order : Int
deriving DecidableEq

/-- Shape of a `lookbookentry` document as stored: the `order` field may
be absent, which the handler reads with `d.get("order", 0)`. -/
structure LookbookDoc where
  season : String
  title : String
  slug : String
  image : String
  product_slugs : List String
  order : Option Int
deriving DecidableEq

/-- Serialization of a validated `LookbookEntry` into a stored document. -/
def LookbookEntry.toDoc (e : LookbookEntry) : LookbookDoc :=
  ⟨e.season, e.title, e.slug, e.image, e.product_slugs, some e.order⟩

/-- LoyaltyUser schema from `schemas.py` (collection `loyaltyuser`). -/
structure LoyaltyUser where
  email : String
  photons : Int
  tier : String
deriving DecidableEq

/-- Shape of a `loyaltyuser` document as stored: the `photons` field may
be absent, which the handler reads with `doc.get("photons", 0)`. -/
structure LoyaltyDoc where
  email : String
  photons : Option Int
  tier : String
deriving DecidableEq

/-- Serialization of a validated `LoyaltyUser` into a stored document. -/
def LoyaltyUser.toDoc (u : LoyaltyUser) : LoyaltyDoc :=
  ⟨u.email, some u.photons, u.tier⟩

/-- Pydantic construction of a `LoyaltyUser`: the `photons` field is
declared `Field(0, ge=0)` and `tier` is a literal, so construction with
a negative photon count (or unknown tier) raises a validation error. -/
def mkLoyaltyUser (email : String) (photons : Int) (tier : String) :
    Except String LoyaltyUser :=
  if photons < 0 then
    .error "ValidationError: photons must be greater than or equal to 0"
  else if ("Nova" == tier || "Lunar" == tier || "Eclipse" == tier) = false then
    .error "ValidationError: tier must be Nova, Lunar or Eclipse"
  else
    .ok ⟨email, photons, tier⟩

/-- JournalPost schema from `schemas.py` (collection `journalpost`). -/
structure JournalPost where
  title : String
  slug : String
  cover : String
  content : Option String
deriving DecidableEq

/-- A stored document: the payload together with the internal
store-assigned identifier (`_id`), `none` once stripped for a response. -/
structure DbDoc (α : Type) where
  oid : Option Nat
  val : α
deriving DecidableEq

/-- One collection of the document store: the documents in store-native
order plus the counter generating fresh internal identifiers. -/
structure Coll (α : Type) where
  next : Nat
  docs : List (DbDoc α)
deriving DecidableEq

def Coll.empty {α : Type} : Coll α := ⟨0, []⟩

/-- Modelled from the spec: the adapter's
`insert(collection, document) -> id` — serializes the record, appends it
to the collection and returns the store-generated identifier.  Always
inserts, no deduplication. -/
def create_document {α : Type} (c : Coll α) (a : α) : Nat × Coll α :=
  (c.next, ⟨c.next + 1, c.docs ++ [⟨some c.next, a⟩]⟩)

/-- Modelled from the spec: the adapter's
`find(collection, filter, limit) -> list` — all documents matching an
exact-equality filter, in store-native order, truncated to `limit`. -/
def get_documents {α : Type} (c : Coll α) (filt : α → Bool)
    (limit : Option Nat) : List (DbDoc α) :=
  let matched := c.docs.filter (fun d => filt d.val)
  match limit with
  | none => matched
  | some n => matched.take n

/-- Replace the first document whose internal id matches, applying the
partial update to its payload. -/
def setFirst {α : Type} (target : Option Nat) (f : α → α) :
    List (DbDoc α) → List (DbDoc α)
  | [] => []
  | d :: ds =>
    if d.oid = target then ⟨d.oid, f d.val⟩ :: ds
    else d :: setFirst target f ds

/-- Modelled from the spec: the adapter's
`update-set(collection, internalId, fields)` — applies a partial field
update to exactly one document identified by internal id (the handler
calls it as `update_one({"_id": ...}, {"$set": ...})`). -/
def update_set {α : Type} (c : Coll α) (target : Option Nat) (f : α → α) :
    Coll α :=
  ⟨c.next, setFirst target f c.docs⟩

/-- The document store: one collection per schema, named as in the code
(lowercase of the class name). -/
structure Store where
  product : Coll Product
  lookbookentry : Coll LookbookDoc
  loyaltyuser : Coll LoyaltyDoc
  journalpost : Coll JournalPost
deriving DecidableEq

def emptyStore : Store := ⟨Coll.empty, Coll.empty, Coll.empty, Coll.empty⟩

/-- Stripping the internal identifier from a document before returning
it, as in `doc.pop("_id", None)`. -/
def popId {α : Type} (d : DbDoc α) : DbDoc α := ⟨none, d.val⟩

/-! ## GET /test — health probe -/

/-- Modelled from the spec: the database handle is either unset (`db is
None`) or a connection whose `list_collection_names()` call either
succeeds with the collection names or raises with a message. -/
inductive DbConn where
  | unavailable : DbConn
  | conn (listResult : Except String (List String)) : DbConn

structure TestResp where
  backend : String
  database : String
  collections : List String
deriving DecidableEq

/-- The `try:` block of `test_database`: builds the default response,
and when the handle is live marks it connected and lists the collection
names — a call that may raise. -/
def test_body (c : DbConn) : Except String TestResp :=
  match c with
  | .unavailable => .ok ⟨"✅ Running", "❌ Not Available", []⟩
  | .conn r =>
    match r with
    | .ok names => .ok ⟨"✅ Running", "✅ Connected", names⟩
    | .error e => .error e

/-- `GET /test` from `main.py`: runs the body and catches any failure,
reporting it as `"❌ " + str(e)[:120]` with the collections list left
empty. -/
def test_database (c : DbConn) : Except String TestResp :=
  match test_body c with
  | .ok r => .ok r
  | .error e => .ok ⟨"✅ Running", "❌ " ++ e.take 120, []⟩

/-- The `database` field of a health-probe outcome. -/
def dbField (x : Except String TestResp) : String :=
  match x with
  | .ok r => r.database
  | .error e => e

/-! ## Product endpoints -/

/-- `GET /api/products` from `main.py`.  The filter is
`{"category": category} if category else {}`: by Python truthiness an
absent or empty-string category yields the empty filter. -/
def list_products (st : Store) (category : Option String) :
    List (DbDoc Product) :=
  let filt : Product → Bool :=
    match category with
    | some c => if c ≠ "" then (fun p => p.category == c) else (fun _ => true)
    | none => fun _ => true
  (get_documents st.product filt none).map popId

/-- `GET /api/products/{slug}` from `main.py`: first document whose slug
matches exactly, internal id stripped; 404 when none matches. -/
def get_product (st : Store) (slug : String) :
    Except (Nat × String) (DbDoc Product) :=
  match get_documents st.product (fun p => p.slug == slug) (some 1) with
  | [] => .error (404, "Product not found")
  | d :: _ => .ok (popId d)

/-- `POST /api/products` from `main.py`: inserts the validated payload
and returns the new internal id. -/
def create_product (st : Store) (payload : Product) : Nat × Store :=
  let r := create_document st.product payload
  (r.1, { st with product := r.2 })

/-! ## Lookbook endpoint -/

/-- Sort key of `docs.sort(key=lambda d: d.get("order", 0))`. -/
def lookOrder (d : DbDoc LookbookDoc) : Int := d.val.order.getD 0

/-- `GET /api/lookbook/{season}` from `main.py`: all entries of the
season, stably sorted ascending by `order` (missing `order` read as 0),
internal ids stripped.  Python's `list.sort` is a stable sort; it is
modelled by the stable `List.mergeSort`. -/
def get_lookbook (st : Store) (season : String) : List (DbDoc LookbookDoc) :=
  let docs := get_documents st.lookbookentry (fun e => e.season == season) none
  (docs.mergeSort (fun a b => lookOrder a ≤ lookOrder b)).map popId

/-! ## Loyalty endpoints -/

/-- `GET /api/universe/profile` from `main.py`: look up by email; when
absent, auto-provision `LoyaltyUser(email=email)` (defaults
`photons=0`, `tier="Nova"`, both trivially passing validation), persist
it and return it; otherwise return the stored document, id stripped. -/
def get_profile (st : Store) (email : String) : LoyaltyDoc × Store :=
  match get_documents st.loyaltyuser (fun u => u.email == email) (some 1) with
  | [] =>
    let profile : LoyaltyUser := ⟨email, 0, "Nova"⟩
    let c := (create_document st.loyaltyuser profile.toDoc).2
    (profile.toDoc, { st with loyaltyuser := c })
  | d :: _ => (d.val, st)

structure PhotonEvent where
  email : String
  kind : String
  amount : Int
deriving DecidableEq

structure EarnResp where
  ok : Bool
  photons : Option Int
deriving DecidableEq

/-- `POST /api/universe/earn` from `main.py`: when no profile exists,
construct `LoyaltyUser(email, photons=amount)` (pydantic validates
`photons ≥ 0` here) and persist it, answering without a total; when a
profile exists, add `amount` to `doc.get("photons", 0)`, persist the
new total with an id-targeted `$set` update (no validation on this
path), and answer with the total. -/
def earn_photons (st : Store) (event : PhotonEvent) :
    Except String (Store × EarnResp) :=
  match get_documents st.loyaltyuser (fun u => u.email == event.email) (some 1) with
  | [] =>
    match mkLoyaltyUser event.email event.amount "Nova" with
    | .error e => .error e
    | .ok profile =>
      let c := (create_document st.loyaltyuser profile.toDoc).2
      .ok ({ st with loyaltyuser := c }, ⟨true, none⟩)
  | d :: _ =>
    let photons : Int := d.val.photons.getD 0 + event.amount
    let c := update_set st.loyaltyuser d.oid
      (fun u => { u with photons := some photons })
    .ok ({ st with loyaltyuser := c }, ⟨true, some photons⟩)

/-! ## Journal endpoint -/

/-- `GET /api/journal` from `main.py`: every journal post, unfiltered,
ids stripped. -/
def list_journal (st : Store) : List (DbDoc JournalPost) :=
  (get_documents st.journalpost (fun _ => true) none).map popId

/-! ## POST /api/seed -/

/-- The two sample products of `seed_minimal`. -/
def sampleProducts : List Product :=
  [⟨"Selene Sheath Dress", "selene-sheath-dress",
    some "A weightless satin silhouette with lunar drape.",
    680, "Ready-to-Wear",
    ["https://images.unsplash.com/photo-1542060748-10c28b62716d?w=1400&q=80&auto=format&fit=crop"],
    none, ["Lunar Blush", "Eclipse Black"], ["XS", "S", "M", "L"],
    some (24 / 10 : Rat), true⟩,
   ⟨"Nova Organza Gown", "nova-organza-gown",
    some "Ethereal organza with hand-finished moonsheen.",
    1450, "Occasion",
    ["https://images.unsplash.com/photo-1520975954732-35dd226f1e9c?w=1400&q=80&auto=format&fit=crop"],
    none, ["Iridescent Pearl"], ["S", "M", "L"],
    some (51 / 10 : Rat), true⟩]

/-- The sample lookbook entry of `seed_minimal`. -/
def sampleLooks : List LookbookEntry :=
  [⟨"fall-24", "Moonrise Over Silk", "moonrise-over-silk",
    "https://images.unsplash.com/photo-1503342394123-480259ab08e2?w=1400&q=80&auto=format&fit=crop",
    ["selene-sheath-dress"], 1⟩]

/-- The sample journal post of `seed_minimal`. -/
def samplePosts : List JournalPost :=
  [⟨"On Weightless Femininity", "on-weightless-femininity",
    "https://images.unsplash.com/photo-1503342217505-b0a15cf70489?w=1400&q=80&auto=format&fit=crop",
    none⟩]

/-- One iteration of a seeding loop: insert the sample and bump the
counter unless its slug is in the pre-computed set of existing slugs. -/
def seedStep {α : Type} (f : α → String) (existing : List String)
    (acc : Coll α × Nat) (it : α) : Coll α × Nat :=
  if existing.contains (f it) then acc
  else ((create_document acc.1 it).2, acc.2 + 1)

/-- One collection's portion of `seed_minimal`: read the existing slugs
once, then insert each sample whose slug is not among them, counting
insertions. -/
def seedColl {α : Type} (f : α → String) (items : List α) (c : Coll α) :
    Coll α × Nat :=
  let existing := (get_documents c (fun _ => true) none).map (fun d => f d.val)
  items.foldl (seedStep f existing) (c, 0)

structure SeedCounts where
  products : Nat
  lookbook : Nat
  journal : Nat
deriving DecidableEq

/-- `POST /api/seed` from `main.py`: seed products, lookbook entries and
journal posts, inserting each fixed sample only when its slug is absent,
and report how many of each were inserted. -/
def seed_minimal (st : Store) : Store × SeedCounts :=
  let p := seedColl (fun x => x.slug) sampleProducts st.product
  let l := seedColl (fun x => x.slug) (sampleLooks.map LookbookEntry.toDoc)
    st.lookbookentry
  let j := seedColl (fun x => x.slug) samplePosts st.journalpost
  ({ st with product := p.1, lookbookentry := l.1, journalpost := j.1 },
   ⟨p.2, l.2, j.2⟩)

/-! ## Helper lemmas -/

/-- Taking one element of a filtered list is finding the first match. -/
theorem filter_take_one {α : Type} (p : α → Bool) :
    ∀ l : List α,
      (l.filter p).take 1
        = match l.find? p with
          | none => []
          | some a => [a]
  | [] => rfl
  | a :: l => by
    by_cases h : p a
    · simp [List.filter_cons, h]
    · rw [List.filter_cons_of_neg (by simpa using h),
        List.find?_cons_of_neg _ (by simpa using h)]
      exact filter_take_one p l

/-- Finding in an append whose first part has no match. -/
theorem find?_append_none {α : Type} (p : α → Bool) :
    ∀ (l₁ : List α) (l₂ : List α), l₁.find? p = none →
      (l₁ ++ l₂).find? p = l₂.find? p
  | [], _, _ => rfl
  | a :: l₁, l₂, h => by
    have hpa : ¬ p a = true := by
      intro hpa
      rw [List.find?_cons_of_pos _ hpa] at h
      cases h
    rw [List.find?_cons_of_neg _ hpa] at h
    rw [List.cons_append, List.find?_cons_of_neg _ hpa]
    exact find?_append_none p l₁ l₂ h

/-- Unfolding of a seeding loop: the documents gained are exactly the
samples whose slug is not in the pre-computed `existing` set, in order,
and the counter counts them. -/
theorem seed_foldl_spec {α : Type} (f : α → String) (existing : List String) :
    ∀ (items : List α) (c : Coll α) (k : Nat),
      ((items.foldl (seedStep f existing) (c, k)).1.docs.map DbDoc.val
          = c.docs.map DbDoc.val
            ++ items.filter (fun it => !(existing.contains (f it))))
      ∧ ((items.foldl (seedStep f existing) (c, k)).2
          = k + (items.filter (fun it => !(existing.contains (f it)))).length)
  | [], c, k => by simp
  | it :: rest, c, k => by
    by_cases h : existing.contains (f it)
    · have ih := seed_foldl_spec f existing rest c k
      have hstep : seedStep f existing (c, k) it = (c, k) := by
        rw [seedStep, if_pos h]
      have hflt : (it :: rest).filter (fun x => !(existing.contains (f x)))
          = rest.filter (fun x => !(existing.contains (f x))) :=
        List.filter_cons_of_neg (by rw [h]; simp)
      rw [List.foldl_cons, hstep, hflt]
      exact ih
    · have hfalse : existing.contains (f it) = false := by
        cases hb : existing.contains (f it)
        · rfl
        · exact absurd hb h
      have ih := seed_foldl_spec f existing rest (create_document c it).2 (k + 1)
      have hd : (create_document c it).2.docs.map DbDoc.val
          = c.docs.map DbDoc.val ++ [it] := by
        simp [create_document]
      have hstep : seedStep f existing (c, k) it
          = ((create_document c it).2, k + 1) := by
        rw [seedStep, if_neg h]
      have hflt : (it :: rest).filter (fun x => !(existing.contains (f x)))
          = it :: rest.filter (fun x => !(existing.contains (f x))) :=
        List.filter_cons_of_pos (by rw [hfalse]; rfl)
      constructor
      · rw [List.foldl_cons, hstep, ih.1, hd, hflt]
        simp
      · rw [List.foldl_cons, hstep, ih.2, hflt]
        simp
        omega

/-- Specification of one collection's seeding pass: inserted documents
are exactly the samples whose slug no existing document carries. -/
theorem seedColl_spec {α : Type} (f : α → String) (items : List α) (c : Coll α) :
    ((seedColl f items c).1.docs.map DbDoc.val
        = c.docs.map DbDoc.val
          ++ items.filter
              (fun it => !((c.docs.map (fun d => f d.val)).contains (f it))))
    ∧ ((seedColl f items c).2
        = (items.filter
            (fun it => !((c.docs.map (fun d => f d.val)).contains (f it)))).length) := by
  have hex : (get_documents c (fun _ => true) none).map (fun d => f d.val)
      = c.docs.map (fun d => f d.val) := by
    simp [get_documents]
  have hseed : seedColl f items c
      = items.foldl (seedStep f (c.docs.map (fun d => f d.val))) (c, 0) := by
    unfold seedColl
    rw [hex]
  constructor
  · rw [hseed, (seed_foldl_spec f _ items c 0).1]
  · rw [hseed, (seed_foldl_spec f _ items c 0).2]
    omega

/-- After a seeding pass every sample's slug is present. -/
theorem seedColl_slug_mem {α : Type} (f : α → String) (items : List α)
    (c : Coll α) (it : α) (hit : it ∈ items) :
    f it ∈ (seedColl f items c).1.docs.map (fun d => f d.val) := by
  have h := (seedColl_spec f items c).1
  have hmap : (seedColl f items c).1.docs.map (fun d => f d.val)
      = ((seedColl f items c).1.docs.map DbDoc.val).map f := by
    rw [List.map_map]
    rfl
  rw [hmap, h, List.map_append, List.mem_append]
  by_cases hc : (c.docs.map (fun d => f d.val)).contains (f it)
  · left
    have hm : f it ∈ c.docs.map (fun d => f d.val) := List.elem_iff.mp hc
    rw [List.map_map]
    exact hm
  · right
    have hfalse : (c.docs.map (fun d => f d.val)).contains (f it) = false := by
      cases hb : (c.docs.map (fun d => f d.val)).contains (f it)
      · rfl
      · exact absurd hb hc
    refine List.mem_map_of_mem f ?_
    rw [List.mem_filter]
    refine ⟨hit, ?_⟩
    rw [hfalse]
    rfl

/-- A second seeding pass over the same samples inserts nothing. -/
theorem seedColl_twice {α : Type} (f : α → String) (items : List α) (c : Coll α) :
    (seedColl f items ((seedColl f items c).1)).2 = 0 := by
  rw [(seedColl_spec f items ((seedColl f items c).1)).2]
  rw [List.length_eq_zero, List.filter_eq_nil_iff]
  intro a ha
  have hmem := seedColl_slug_mem f items c a ha
  have htrue : ((seedColl f items c).1.docs.map (fun d => f d.val)).contains (f a)
      = true := List.elem_iff.mpr hmem
  rw [htrue]
  simp

/-! ## Claim theorems -/

/-- C1: `POST /api/seed` is idempotent: on a fresh store the first call
inserts a nonzero number of sample documents (2 products, 1 lookbook
entry, 1 journal post), every call made on the result of a seed call
inserts nothing, returning `{products: 0, lookbook: 0, journal: 0}`,
and on any store a sample is inserted exactly when no existing document
of its collection shares its slug. -/
theorem seed_minimal_idempotent :
    ((seed_minimal emptyStore).2 = ⟨2, 1, 1⟩)
    ∧ (∀ st : Store, (seed_minimal (seed_minimal st).1).2 = ⟨0, 0, 0⟩)
    ∧ (∀ st : Store,
        ((seed_minimal st).1.product.docs.map DbDoc.val
          = st.product.docs.map DbDoc.val
            ++ sampleProducts.filter
                (fun p => !((st.product.docs.map (fun d => d.val.slug)).contains p.slug)))
        ∧ ((seed_minimal st).1.lookbookentry.docs.map DbDoc.val
          = st.lookbookentry.docs.map DbDoc.val
            ++ (sampleLooks.map LookbookEntry.toDoc).filter
                (fun e => !((st.lookbookentry.docs.map (fun d => d.val.slug)).contains e.slug)))
        ∧ ((seed_minimal st).1.journalpost.docs.map DbDoc.val
          = st.journalpost.docs.map DbDoc.val
            ++ samplePosts.filter
                (fun j => !((st.journalpost.docs.map (fun d => d.val.slug)).contains j.slug)))) := by
  refine ⟨by decide, ?_, ?_⟩
  · intro st
    show (⟨(seedColl (fun x : Product => x.slug) sampleProducts
              ((seedColl (fun x : Product => x.slug) sampleProducts st.product).1)).2,
          (seedColl (fun x : LookbookDoc => x.slug) (sampleLooks.map LookbookEntry.toDoc)
              ((seedColl (fun x : LookbookDoc => x.slug) (sampleLooks.map LookbookEntry.toDoc)
                st.lookbookentry).1)).2,
          (seedColl (fun x : JournalPost => x.slug) samplePosts
              ((seedColl (fun x : JournalPost => x.slug) samplePosts st.journalpost).1)).2⟩
        : SeedCounts) = ⟨0, 0, 0⟩
    rw [seedColl_twice, seedColl_twice, seedColl_twice]
  · intro st
    exact ⟨(seedColl_spec (fun x : Product => x.slug) sampleProducts st.product).1,
      (seedColl_spec (fun x : LookbookDoc => x.slug) (sampleLooks.map LookbookEntry.toDoc)
        st.lookbookentry).1,
      (seedColl_spec (fun x : JournalPost => x.slug) samplePosts st.journalpost).1⟩

/-- C9: `GET /test` never surfaces an error: for every state of the
database handle the handler answers, reporting liveness, the
connectivity status and a (possibly empty) collection list; a failure
of the listing call is caught and reported in the `database` field as
the message truncated to 120 characters (hence at most 122 characters
with its prefix). -/
theorem test_database_never_raises :
    (∀ c : DbConn, (test_database c).isOk = true)
    ∧ test_database .unavailable = .ok ⟨"✅ Running", "❌ Not Available", []⟩
    ∧ (∀ names, test_database (.conn (.ok names))
        = .ok ⟨"✅ Running", "✅ Connected", names⟩)
    ∧ (∀ e, test_database (.conn (.error e))
        = .ok ⟨"✅ Running", "❌ " ++ e.take 120, []⟩)
    ∧ (∀ e, (dbField (test_database (.conn (.error e)))).length ≤ 122) := by
  refine ⟨?_, rfl, fun names => rfl, fun e => rfl, ?_⟩
  · intro c
    cases c with
    | unavailable => rfl
    | conn r =>
      cases r with
      | ok names => rfl
      | error e => rfl
  · intro e
    show ("❌ " ++ e.take 120).length ≤ 122
    rw [String.length_append]
    have h2 : ("❌ " : String).length = 2 := rfl
    have ht : (e.take 120).length ≤ 120 := by
      rw [String.take_eq]
      show (e.1.take 120).length ≤ 120
      rw [List.length_take]
      omega
    rw [h2]
    omega

/-- C10: `GET /api/products` with `category` equal to the empty string
behaves exactly like an absent `category` parameter: all products are
returned, ids stripped. -/
theorem list_products_empty_category_is_all :
    ∀ st : Store,
      list_products st (some "") = list_products st none
      ∧ list_products st (some "") = st.product.docs.map popId := by
  intro st
  refine ⟨rfl, ?_⟩
  show (get_documents st.product (fun _ => true) none).map popId
      = st.product.docs.map popId
  simp [get_documents]

/-- C8: `GET /api/products` with a (nonempty) category value returns
exactly the products whose category field equals that value, and with
the parameter absent returns all products; the empty-string value is
treated separately as an absent parameter by Python truthiness. -/
theorem list_products_category_exact :
    (∀ (st : Store) (c : String), c ≠ "" →
        list_products st (some c)
          = (st.product.docs.filter (fun d => d.val.category == c)).map popId)
    ∧ (∀ st : Store, list_products st none = st.product.docs.map popId) := by
  constructor
  · intro st c hc
    show (get_documents st.product
        (if c ≠ "" then (fun p => p.category == c) else (fun _ => true)) none).map popId
      = _
    rw [if_pos hc]
    rfl
  · intro st
    show (get_documents st.product (fun _ => true) none).map popId
        = st.product.docs.map popId
    simp [get_documents]

/-- A concrete product used to instantiate the product theorems. -/
def occasionProduct : Product :=
  ⟨"Nova Organza Gown", "nova-organza-gown", none, 1450, "Occasion",
   [], none, [], ["S", "M", "L"], none, true⟩

/-- A store holding exactly one product. -/
def oneProductStore : Store :=
  { emptyStore with product := ⟨1, [⟨some 0, occasionProduct⟩]⟩ }

/-- Witness for C8 at a concrete store and the category "Occasion". -/
theorem list_products_category_exact_witness :
    list_products oneProductStore (some "Occasion")
      = (oneProductStore.product.docs.filter
          (fun d => d.val.category == "Occasion")).map popId :=
  list_products_category_exact.1 oneProductStore "Occasion" (by decide)

/-- Reduction of `get_product` to the first matching document. -/
theorem get_product_eq_find (st : Store) (slug : String) :
    get_product st slug
      = match st.product.docs.find? (fun d => d.val.slug == slug) with
        | none => .error (404, "Product not found")
        | some d => .ok ⟨none, d.val⟩ := by
  show (match (st.product.docs.filter (fun d => d.val.slug == slug)).take 1 with
        | [] => (.error (404, "Product not found") : Except (Nat × String) (DbDoc Product))
        | d :: _ => .ok (popId d)) = _
  rw [filter_take_one]
  cases st.product.docs.find? (fun d => d.val.slug == slug) <;> rfl

/-- C6: `GET /api/products/{slug}` answers Not-Found exactly when no
stored product's slug equals the path parameter; when one does, it
answers with the first matching document, internal identifier
removed. -/
theorem get_product_not_found_iff :
    ∀ (st : Store) (slug : String),
      (get_product st slug = .error (404, "Product not found")
        ↔ ∀ d ∈ st.product.docs, d.val.slug ≠ slug)
      ∧ (∀ d₀, st.product.docs.find? (fun d => d.val.slug == slug) = some d₀ →
          get_product st slug = .ok ⟨none, d₀.val⟩) := by
  intro st slug
  have hq := get_product_eq_find st slug
  cases hfind : st.product.docs.find? (fun d => d.val.slug == slug) with
  | none =>
    rw [hfind] at hq
    constructor
    · constructor
      · intro _ d hd
        have := List.find?_eq_none.mp hfind d hd
        simpa using this
      · intro _
        exact hq
    · intro d₀ h
      cases h
  | some a =>
    rw [hfind] at hq
    have ha := List.find?_some hfind
    have hmem : a ∈ st.product.docs := List.mem_of_find?_eq_some hfind
    constructor
    · constructor
      · intro he
        rw [hq] at he
        cases he
      · intro hall
        exact absurd (eq_of_beq ha) (hall a hmem)
    · intro d₀ h
      cases h
      exact hq

/-- Witness for C6 at a store holding one matching product. -/
theorem get_product_not_found_iff_witness :
    get_product oneProductStore "nova-organza-gown" = .ok ⟨none, occasionProduct⟩ :=
  (get_product_not_found_iff oneProductStore "nova-organza-gown").2
    ⟨some 0, occasionProduct⟩ (by decide)

/-- C5: creating a product whose slug is not yet in the store and then
fetching that slug returns exactly the submitted payload with no
internal identifier attached. -/
theorem create_then_get_product :
    ∀ (st : Store) (p : Product),
      Product.validb p = true →
      (∀ d ∈ st.product.docs, d.val.slug ≠ p.slug) →
      get_product (create_product st p).2 p.slug = .ok ⟨none, p⟩ := by
  intro st p _ hfresh
  have hdocs : (create_product st p).2.product.docs
      = st.product.docs ++ [⟨some st.product.next, p⟩] := rfl
  have hnone : st.product.docs.find? (fun d => d.val.slug == p.slug) = none :=
    List.find?_eq_none.mpr (fun d hd => by simpa using hfresh d hd)
  rw [get_product_eq_find, hdocs, find?_append_none _ _ _ hnone]
  rw [List.find?_cons_of_pos _ (by simp)]

/-- Witness for C5 at the empty store and a concrete valid payload. -/
theorem create_then_get_product_witness :
    get_product (create_product emptyStore occasionProduct).2 "nova-organza-gown"
      = .ok ⟨none, occasionProduct⟩ :=
  create_then_get_product emptyStore occasionProduct (by decide) (by decide)

/-- The Boolean comparison used by the lookbook sort is transitive. -/
theorem lookLe_trans (a b c : DbDoc LookbookDoc)
    (h1 : (decide (lookOrder a ≤ lookOrder b)) = true)
    (h2 : (decide (lookOrder b ≤ lookOrder c)) = true) :
    (decide (lookOrder a ≤ lookOrder c)) = true := by
  simp only [decide_eq_true_eq] at h1 h2 ⊢
  omega

/-- The Boolean comparison used by the lookbook sort is total. -/
theorem lookLe_total (a b : DbDoc LookbookDoc) :
    ((decide (lookOrder a ≤ lookOrder b)) || (decide (lookOrder b ≤ lookOrder a))) = true := by
  simp only [Bool.or_eq_true, decide_eq_true_eq]
  omega

/-- C7: `GET /api/lookbook/{season}` returns exactly the stored entries
of that season (one per matching document, same payloads), sorted
non-decreasing by `order` with a missing `order` read as 0, and the
sort is stable: entries of equal order keep their store-native relative
order (for every order value, the matching entries appear exactly as in
the store). -/
theorem get_lookbook_sorted_stable :
    ∀ (st : Store) (season : String),
      ((get_lookbook st season).map DbDoc.val).Perm
        ((st.lookbookentry.docs.filter (fun d => d.val.season == season)).map DbDoc.val)
      ∧ (get_lookbook st season).Pairwise (fun a b => lookOrder a ≤ lookOrder b)
      ∧ (∀ k : Int,
          (get_lookbook st season).filter (fun d => lookOrder d == k)
            = ((st.lookbookentry.docs.filter (fun d => d.val.season == season)).filter
                (fun d => lookOrder d == k)).map popId) := by
  intro st season
  have hgl : get_lookbook st season
      = ((st.lookbookentry.docs.filter (fun d => d.val.season == season)).mergeSort
          (fun a b => lookOrder a ≤ lookOrder b)).map popId := rfl
  set matching := st.lookbookentry.docs.filter (fun d => d.val.season == season) with hm
  set S := matching.mergeSort (fun a b => lookOrder a ≤ lookOrder b) with hS
  have hperm : S.Perm matching := List.mergeSort_perm matching _
  refine ⟨?_, ?_, ?_⟩
  · rw [hgl]
    have hmap : (S.map popId).map DbDoc.val = S.map DbDoc.val := by
      rw [List.map_map]
      rfl
    rw [hmap]
    exact hperm.map DbDoc.val
  · rw [hgl]
    have hp : S.Pairwise (fun a b => (decide (lookOrder a ≤ lookOrder b)) = true) :=
      List.sorted_mergeSort lookLe_trans lookLe_total matching
    rw [List.pairwise_map]
    refine hp.imp ?_
    intro a b hab
    simpa using hab
  · intro k
    have hsfil : ∀ l : List (DbDoc LookbookDoc),
        (l.map popId).filter (fun d => lookOrder d == k)
          = (l.filter (fun d => lookOrder d == k)).map popId := by
      intro l
      rw [List.filter_map]
      rfl
    rw [hgl, hsfil]
    have hsub : List.Sublist (matching.filter (fun d => lookOrder d == k)) S := by
      refine List.sublist_mergeSort lookLe_trans lookLe_total ?_ (List.filter_sublist matching)
      refine List.pairwise_of_forall_mem_list ?_
      intro a haf b hbf
      have ha : lookOrder a = k := by
        have := (List.mem_filter.mp haf).2
        simpa using this
      have hb : lookOrder b = k := by
        have := (List.mem_filter.mp hbf).2
        simpa using this
      simp [ha, hb]
    have hsub2 : List.Sublist (matching.filter (fun d => lookOrder d == k))
        (S.filter (fun d => lookOrder d == k)) := by
      have := hsub.filter (fun d => lookOrder d == k)
      have hfun : (fun a : DbDoc LookbookDoc => (lookOrder a == k) && (lookOrder a == k))
          = (fun a : DbDoc LookbookDoc => lookOrder a == k) := by
        funext x
        cases hx : (lookOrder x == k) <;> simp [hx]
      rw [List.filter_filter, hfun] at this
      exact this
    have hlen : (S.filter (fun d => lookOrder d == k)).length
        = (matching.filter (fun d => lookOrder d == k)).length :=
      (hperm.filter (fun d => lookOrder d == k)).length_eq
    have := hsub2.eq_of_length hlen.symm
    rw [← this]

/-- Reduction of `get_profile` to the first matching document. -/
theorem get_profile_eq_find (st : Store) (email : String) :
    get_profile st email
      = (match st.loyaltyuser.docs.find? (fun d => d.val.email == email) with
         | none =>
           ((⟨email, some 0, "Nova"⟩ : LoyaltyDoc),
            { st with loyaltyuser :=
               ⟨st.loyaltyuser.next + 1,
                st.loyaltyuser.docs
                  ++ [⟨some st.loyaltyuser.next, ⟨email, some 0, "Nova"⟩⟩]⟩ })
         | some d => (d.val, st) : LoyaltyDoc × Store) := by
  show (match (st.loyaltyuser.docs.filter (fun d => d.val.email == email)).take 1 with
        | [] =>
          ((⟨email, 0, "Nova"⟩ : LoyaltyUser).toDoc,
           { st with loyaltyuser :=
              (create_document st.loyaltyuser (⟨email, 0, "Nova"⟩ : LoyaltyUser).toDoc).2 })
        | d :: _ => (d.val, st)) = _
  rw [filter_take_one]
  cases st.loyaltyuser.docs.find? (fun d => d.val.email == email) <;> rfl

/-- C4: `GET /api/universe/profile` for an email with no stored profile
creates and returns a profile with `photons = 0` and `tier = "Nova"`;
afterwards exactly one profile with that email is stored, and a second
identical call returns the same profile while leaving the store
untouched (no increment, no duplicate). -/
theorem get_profile_autoprovision :
    ∀ (st : Store) (email : String),
      (∀ d ∈ st.loyaltyuser.docs, d.val.email ≠ email) →
      ((get_profile st email).1 = ⟨email, some 0, "Nova"⟩
       ∧ ((get_profile st email).2.loyaltyuser.docs.filter
            (fun d => d.val.email == email)).map DbDoc.val = [⟨email, some 0, "Nova"⟩]
       ∧ get_profile ((get_profile st email).2) email
          = (⟨email, some 0, "Nova"⟩, (get_profile st email).2)) := by
  intro st email hfresh
  have hnone : st.loyaltyuser.docs.find? (fun d => d.val.email == email) = none :=
    List.find?_eq_none.mpr (fun d hd => by simpa using hfresh d hd)
  have hnil : st.loyaltyuser.docs.filter (fun d => d.val.email == email) = [] :=
    List.filter_eq_nil_iff.mpr (fun d hd => by simpa using hfresh d hd)
  have h1 := get_profile_eq_find st email
  rw [hnone] at h1
  refine ⟨by rw [h1], ?_, ?_⟩
  · rw [h1]
    show ((st.loyaltyuser.docs
        ++ ([⟨some st.loyaltyuser.next, ⟨email, some 0, "Nova"⟩⟩]
            : List (DbDoc LoyaltyDoc))).filter
          (fun d => d.val.email == email)).map DbDoc.val = _
    rw [List.filter_append, hnil]
    simp
  · have h2 := get_profile_eq_find (get_profile st email).2 email
    rw [h1] at h2 ⊢
    rw [show ({ st with loyaltyuser :=
          ⟨st.loyaltyuser.next + 1,
           st.loyaltyuser.docs
             ++ [⟨some st.loyaltyuser.next, ⟨email, some 0, "Nova"⟩⟩]⟩ } : Store).loyaltyuser.docs
        = st.loyaltyuser.docs
            ++ [⟨some st.loyaltyuser.next, ⟨email, some 0, "Nova"⟩⟩] from rfl,
      find?_append_none _ _ _ hnone,
      List.find?_cons_of_pos _ (by simp)] at h2
    rw [h2]

/-- Witness for C4 at the empty store. -/
theorem get_profile_autoprovision_witness :
    ((get_profile emptyStore "new@example.com").1
        = ⟨"new@example.com", some 0, "Nova"⟩
     ∧ ((get_profile emptyStore "new@example.com").2.loyaltyuser.docs.filter
          (fun d => d.val.email == "new@example.com")).map DbDoc.val
        = [⟨"new@example.com", some 0, "Nova"⟩]
     ∧ get_profile ((get_profile emptyStore "new@example.com").2) "new@example.com"
        = (⟨"new@example.com", some 0, "Nova"⟩,
           (get_profile emptyStore "new@example.com").2)) :=
  get_profile_autoprovision emptyStore "new@example.com" (by decide)

/-- Applying `setFirst` past a prefix without the target id rewrites the
first document carrying it. -/
theorem setFirst_skip {α : Type} (f : α → α) (d : DbDoc α) :
    ∀ (pre post : List (DbDoc α)),
      (∀ x ∈ pre, x.oid ≠ d.oid) →
      setFirst d.oid f (pre ++ d :: post) = pre ++ ⟨d.oid, f d.val⟩ :: post
  | [], post, _ => by
    show setFirst d.oid f (d :: post) = _
    rw [setFirst, if_pos rfl]
    rfl
  | x :: pre, post, hpre => by
    rw [List.cons_append, setFirst, if_neg (hpre x (by simp))]
    rw [setFirst_skip f d pre post (fun y hy => hpre y (by simp [hy]))]
    rfl

/-- Reduction of `earn_photons` to the first matching document. -/
theorem earn_photons_eq_find (st : Store) (ev : PhotonEvent) :
    earn_photons st ev
      = (match st.loyaltyuser.docs.find? (fun d => d.val.email == ev.email) with
         | none =>
           (match mkLoyaltyUser ev.email ev.amount "Nova" with
            | .error e => .error e
            | .ok profile =>
              .ok ({ st with loyaltyuser :=
                      ⟨st.loyaltyuser.next + 1,
                       st.loyaltyuser.docs
                         ++ [⟨some st.loyaltyuser.next, profile.toDoc⟩]⟩ },
                   ⟨true, none⟩))
         | some d =>
           .ok ({ st with loyaltyuser :=
                   (update_set st.loyaltyuser d.oid
                     (fun u => { u with
                        photons := some (d.val.photons.getD 0 + ev.amount) })) },
                ⟨true, some (d.val.photons.getD 0 + ev.amount)⟩)
         : Except String (Store × EarnResp)) := by
  show (match (st.loyaltyuser.docs.filter (fun d => d.val.email == ev.email)).take 1 with
        | [] =>
          (match mkLoyaltyUser ev.email ev.amount "Nova" with
           | .error e => .error e
           | .ok profile =>
             .ok ({ st with loyaltyuser :=
                     (create_document st.loyaltyuser profile.toDoc).2 },
                  ⟨true, none⟩))
        | d :: _ =>
          .ok ({ st with loyaltyuser :=
                  (update_set st.loyaltyuser d.oid
                    (fun u => { u with
                       photons := some (d.val.photons.getD 0 + ev.amount) })) },
               ⟨true, some (d.val.photons.getD 0 + ev.amount)⟩)
        : Except String (Store × EarnResp)) = _
  rw [filter_take_one]
  cases st.loyaltyuser.docs.find? (fun d => d.val.email == ev.email) with
  | none =>
    cases mkLoyaltyUser ev.email ev.amount "Nova" <;> rfl
  | some d => rfl

/-- C2 (amended): for an earn event whose email has no stored profile
and whose amount is non-negative, a profile with `photons = amount` is
created and the response omits the photon total (a negative amount on
this path is rejected by the schema's `ge=0` validation instead); for
an event whose email has a stored profile — first matching document
`d`, ids unique — the profile's photons become
`d.photons (or 0) + amount`, the new total is persisted in place, and
the response carries that total. -/
theorem earn_photons_spec :
    ∀ (st : Store) (ev : PhotonEvent),
      ((∀ d ∈ st.loyaltyuser.docs, d.val.email ≠ ev.email) → 0 ≤ ev.amount →
        earn_photons st ev
          = .ok ({ st with loyaltyuser :=
                    ⟨st.loyaltyuser.next + 1,
                     st.loyaltyuser.docs
                       ++ [⟨some st.loyaltyuser.next,
                            ⟨ev.email, some ev.amount, "Nova"⟩⟩]⟩ },
                 ⟨true, none⟩))
      ∧ (∀ (pre post : List (DbDoc LoyaltyDoc)) (d : DbDoc LoyaltyDoc),
          st.loyaltyuser.docs = pre ++ d :: post →
          (∀ x ∈ pre, x.val.email ≠ ev.email) →
          d.val.email = ev.email →
          (st.loyaltyuser.docs.map DbDoc.oid).Nodup →
          earn_photons st ev
            = .ok ({ st with loyaltyuser :=
                      ⟨st.loyaltyuser.next,
                       pre ++ ⟨d.oid, { d.val with
                         photons := some (d.val.photons.getD 0 + ev.amount) }⟩ :: post⟩ },
                   ⟨true, some (d.val.photons.getD 0 + ev.amount)⟩)) := by
  intro st ev
  constructor
  · intro hfresh hnn
    have hnone : st.loyaltyuser.docs.find? (fun d => d.val.email == ev.email) = none :=
      List.find?_eq_none.mpr (fun d hd => by simpa using hfresh d hd)
    have hq := earn_photons_eq_find st ev
    rw [hnone] at hq
    have hmk : mkLoyaltyUser ev.email ev.amount "Nova"
        = .ok ⟨ev.email, ev.amount, "Nova"⟩ := by
      unfold mkLoyaltyUser
      rw [if_neg (by omega)]
      rfl
    rw [hmk] at hq
    exact hq
  · intro pre post d hdocs hpre hde hnodup
    have hq := earn_photons_eq_find st ev
    have hfind : st.loyaltyuser.docs.find? (fun x => x.val.email == ev.email)
        = some d := by
      rw [hdocs,
        find?_append_none _ _ _
          (List.find?_eq_none.mpr (fun x hx => by simpa using hpre x hx)),
        List.find?_cons_of_pos _ (by simp [hde])]
    rw [hfind] at hq
    have hpreoid : ∀ x ∈ pre, x.oid ≠ d.oid := by
      intro x hx he
      rw [hdocs, List.map_append, List.map_cons] at hnodup
      have hdisj := List.disjoint_of_nodup_append hnodup
      have h1 : x.oid ∈ pre.map DbDoc.oid := List.mem_map_of_mem DbDoc.oid hx
      have h2 : x.oid ∈ d.oid :: post.map DbDoc.oid := by
        rw [he]
        exact List.mem_cons_self _ _
      exact hdisj h1 h2
    have hset : update_set st.loyaltyuser d.oid
        (fun u => { u with photons := some (d.val.photons.getD 0 + ev.amount) })
        = ⟨st.loyaltyuser.next,
           pre ++ ⟨d.oid, { d.val with
             photons := some (d.val.photons.getD 0 + ev.amount) }⟩ :: post⟩ := by
      show (⟨st.loyaltyuser.next,
        setFirst d.oid
          (fun u => { u with photons := some (d.val.photons.getD 0 + ev.amount) })
          st.loyaltyuser.docs⟩ : Coll LoyaltyDoc) = _
      rw [hdocs, setFirst_skip _ d pre post hpreoid]
    rw [hq]
    show Except.ok
        ({ st with loyaltyuser :=
            (update_set st.loyaltyuser d.oid
              (fun u => { u with
                 photons := some (d.val.photons.getD 0 + ev.amount) })) },
         (⟨true, some (d.val.photons.getD 0 + ev.amount)⟩ : EarnResp)) = _
    rw [hset]

/-- A store holding exactly one loyalty profile with 5 photons. -/
def oneProfileStore : Store :=
  { emptyStore with loyaltyuser := ⟨1, [⟨some 0, ⟨"a@x.com", some 5, "Nova"⟩⟩]⟩ }

/-- Witness for C2: both branches at concrete stores. -/
theorem earn_photons_spec_witness :
    earn_photons emptyStore ⟨"a@x.com", "view_3d", 5⟩
      = .ok ({ emptyStore with loyaltyuser :=
                ⟨1, [⟨some 0, ⟨"a@x.com", some 5, "Nova"⟩⟩]⟩ },
             ⟨true, none⟩)
    ∧ earn_photons oneProfileStore ⟨"a@x.com", "view_3d", 5⟩
      = .ok ({ oneProfileStore with loyaltyuser :=
                ⟨1, [⟨some 0, ⟨"a@x.com", some 10, "Nova"⟩⟩]⟩ },
             ⟨true, some 10⟩) := by
  constructor
  · exact (earn_photons_spec emptyStore ⟨"a@x.com", "view_3d", 5⟩).1
      (by decide) (by decide)
  · exact (earn_photons_spec oneProfileStore ⟨"a@x.com", "view_3d", 5⟩).2
      [] [] ⟨some 0, ⟨"a@x.com", some 5, "Nova"⟩⟩ rfl (by decide) rfl (by decide)

/-- Counterexample to C2 as frozen: an earn event for an email with no
stored profile and a negative amount does not create a profile with
`photons = amount`; the pydantic `ge=0` validation of `LoyaltyUser`
raises instead, so the call yields no success response at all. -/
theorem earn_photons_create_negative_rejected :
    earn_photons emptyStore ⟨"b@x.com", "recycle", -1⟩
      = .error "ValidationError: photons must be greater than or equal to 0" := rfl

/-- C3 fails in the code: the earn path for an existing profile writes
`doc.photons + amount` back with a raw `$set` update and no validation,
so a negative amount drives the persisted photon balance below zero
(here 5 + (-7) = -2), contradicting the schema's `photons ≥ 0`. -/
theorem earn_photons_negative_balance :
    earn_photons oneProfileStore ⟨"a@x.com", "recycle", -7⟩
      = .ok ({ oneProfileStore with loyaltyuser :=
                ⟨1, [⟨some 0, ⟨"a@x.com", some (-2), "Nova"⟩⟩]⟩ },
             ⟨true, some (-2)⟩)
    ∧ (-2 : Int) < 0 := ⟨rfl, by decide⟩
